import Mathlib

/-!
Verification of the "OpenGL - Hello Triangle" program
(`main (explanations).cpp`) against its specification.

The program is a single straight-line `main` calling into GLFW/GLAD/OpenGL,
plus two small callbacks.  We shallowly embed it as a function from an
environment (the outcomes of the fallible library calls: window creation,
loader initialisation, shader compilation, program linking, and the number
of render-loop iterations) to the trace of library calls it performs — a
`List Event` — together with its `int` return value.  Every event mirrors
one statement of the source, in source order, with the arguments the source
passes (float literals are modelled as exact rationals).  `processInput`
and its `glfwGetKey` test are modelled separately on a window state.
-/

namespace HelloTriangle

/-! ### Constants from the GLFW / OpenGL headers used by the source -/

def GLFW_CONTEXT_VERSION_MAJOR : Nat := 0x00022002

def GLFW_CONTEXT_VERSION_MINOR : Nat := 0x00022003

def GLFW_OPENGL_PROFILE : Nat := 0x00022008

def GLFW_OPENGL_CORE_PROFILE : Nat := 0x00032001

def GLFW_KEY_ESCAPE : Nat := 256

def GLFW_PRESS : Nat := 1

def GL_VERTEX_SHADER : Nat := 0x8B31

def GL_FRAGMENT_SHADER : Nat := 0x8B30

def GL_COMPILE_STATUS : Nat := 0x8B81

def GL_LINK_STATUS : Nat := 0x8B82

def GL_ARRAY_BUFFER : Nat := 0x8892

def GL_ELEMENT_ARRAY_BUFFER : Nat := 0x8893

def GL_STATIC_DRAW : Nat := 0x88E4

def GL_FLOAT : Nat := 0x1406

def GL_TRIANGLES : Nat := 0x0004

def GL_UNSIGNED_INT : Nat := 0x1405

def GL_COLOR_BUFFER_BIT : Nat := 0x4000

def GL_FRONT_AND_BACK : Nat := 0x0408

def GL_LINE : Nat := 0x1B01

/-! ### Constants of the source file -/

def SCR_WIDTH : Nat := 800

def SCR_HEIGHT : Nat := 600

/-- `float vertices[] = { 0.5,0.5,0 , 0.5,-0.5,0 , -0.5,-0.5,0 , -0.5,0.5,0 }`:
top right, bottom right, bottom left, top left (exact rationals). -/
def vertices : List ℚ :=
  [ mkRat 1 2,    mkRat 1 2,    0,
    mkRat 1 2,    mkRat (-1) 2, 0,
    mkRat (-1) 2, mkRat (-1) 2, 0,
    mkRat (-1) 2, mkRat 1 2,    0 ]

/-- `unsigned int indices[] = { 0, 2, 3, 0, 1, 2 }`. -/
def indices : List Nat := [0, 2, 3, 0, 1, 2]

/-- IDs handed out by the GL object-creation calls, in creation order. -/
def vertexShaderId : Nat := 1

def fragmentShaderId : Nat := 2

def shaderProgramId : Nat := 3

def vaoId : Nat := 1

def vboId : Nat := 1

def eboId : Nat := 2

def windowErrMsg : String := "Failed to create GLFW Window"

def gladErrMsg : String := "Failed to initialize GLAD"

def vertexErrMsg : String := "ERROR::SHADER::VERTEX::COMPILATION_FAILED"

def linkErrMsg : String := "ERROR::SHADER::PROGRAM::LINKING_FAILED"

/-! ### Events: one constructor per library call the source makes.
`drawArraysE` is in the alphabet (the source mentions `glDrawArrays` only in
a commented-out line) so that "no other draw call" is a meaningful statement. -/

inductive Event where
  | glfwInitE : Event
  | windowHintE (target value : Nat) : Event
  | createWindowE (width height : Nat) (title : String) : Event
  | coutLineE (msg : String) : Event
  | glfwTerminateE : Event
  | makeContextCurrentE : Event
  | setFramebufferSizeCallbackE : Event
  | gladLoadE : Event
  | createShaderE (shaderType : Nat) : Event
  | shaderSourceE (shader : Nat) : Event
  | compileShaderE (shader : Nat) : Event
  | getShaderivE (shader pname : Nat) : Event
  | getShaderInfoLogE (shader : Nat) : Event
  | createProgramE : Event
  | attachShaderE (program shader : Nat) : Event
  | linkProgramE (program : Nat) : Event
  | getProgramivE (program pname : Nat) : Event
  | getProgramInfoLogE (program : Nat) : Event
  | deleteShaderE (shader : Nat) : Event
  | genVertexArraysE (n : Nat) : Event
  | genBuffersE (n : Nat) : Event
  | bindVertexArrayE (vao : Nat) : Event
  | bindBufferE (target buffer : Nat) : Event
  | bufferDataFE (target : Nat) (data : List ℚ) (usage : Nat) : Event
  | bufferDataUE (target : Nat) (data : List Nat) (usage : Nat) : Event
  | vertexAttribPointerE (index size ty : Nat) (normalized : Bool) (stride : Nat) : Event
  | enableVertexAttribArrayE (index : Nat) : Event
  | polygonModeE (face mode : Nat) : Event
  | windowShouldCloseCheckE : Event
  | processInputE : Event
  | clearColorE (r g b a : ℚ) : Event
  | clearE (mask : Nat) : Event
  | useProgramE (program : Nat) : Event
  | drawElementsE (mode count ty offset : Nat) : Event
  | drawArraysE (mode first count : Nat) : Event
  | swapBuffersE : Event
  | pollEventsE : Event
  | deleteVertexArraysE (n : Nat) : Event
  | deleteBuffersE (n : Nat) : Event
deriving DecidableEq

/-- Outcomes of the fallible library calls, and how often
`glfwWindowShouldClose` answers `false` before answering `true`.
`fragmentCompileOk` is the driver-side outcome of compiling the fragment
shader; whether the program ever looks at it is exactly what is at issue. -/
structure Env where
  windowOk : Bool
  gladOk : Bool
  vertexCompileOk : Bool
  fragmentCompileOk : Bool
  linkOk : Bool
  frames : Nat
deriving DecidableEq

/-! ### The trace of `main`, segment by segment, in source order -/

/-- Lines 37–45: `glfwInit`, the three window hints, `glfwCreateWindow`. -/
def initSegA : List Event :=
  [ .glfwInitE,
    .windowHintE GLFW_CONTEXT_VERSION_MAJOR 3,
    .windowHintE GLFW_CONTEXT_VERSION_MINOR 3,
    .windowHintE GLFW_OPENGL_PROFILE GLFW_OPENGL_CORE_PROFILE,
    .createWindowE SCR_WIDTH SCR_HEIGHT "OpenGL - Creating a window" ]

/-- Lines 58–66: make context current, install resize callback, load GLAD. -/
def initSegB : List Event :=
  [ .makeContextCurrentE, .setFramebufferSizeCallbackE, .gladLoadE ]

/-- Lines 90–147: compile the vertex shader and query its compile status
(logging on failure), compile the fragment shader (no status query), link
the program and query its link status (logging on failure), delete shaders. -/
def shaderSeg (vertexCompileOk linkOk : Bool) : List Event :=
  [ .createShaderE GL_VERTEX_SHADER,
    .shaderSourceE vertexShaderId,
    .compileShaderE vertexShaderId,
    .getShaderivE vertexShaderId GL_COMPILE_STATUS ]
  ++ (if vertexCompileOk then []
      else [ .getShaderInfoLogE vertexShaderId, .coutLineE vertexErrMsg ])
  ++ [ .createShaderE GL_FRAGMENT_SHADER,
       .shaderSourceE fragmentShaderId,
       .compileShaderE fragmentShaderId,
       .createProgramE,
       .attachShaderE shaderProgramId vertexShaderId,
       .attachShaderE shaderProgramId fragmentShaderId,
       .linkProgramE shaderProgramId,
       .getProgramivE shaderProgramId GL_LINK_STATUS ]
  ++ (if linkOk then []
      else [ .getProgramInfoLogE shaderProgramId, .coutLineE linkErrMsg ])
  ++ [ .deleteShaderE vertexShaderId, .deleteShaderE fragmentShaderId ]

/-- Lines 152–180: generate and bind VAO/VBO/EBO, upload the two arrays,
set the vertex attribute, and set wireframe polygon mode. -/
def bufferSeg : List Event :=
  [ .genVertexArraysE 1,
    .genBuffersE 1,
    .genBuffersE 1,
    .bindVertexArrayE vaoId,
    .bindBufferE GL_ARRAY_BUFFER vboId,
    .bufferDataFE GL_ARRAY_BUFFER vertices GL_STATIC_DRAW,
    .bindBufferE GL_ELEMENT_ARRAY_BUFFER eboId,
    .bufferDataUE GL_ELEMENT_ARRAY_BUFFER indices GL_STATIC_DRAW,
    .vertexAttribPointerE 0 3 GL_FLOAT false 12,
    .enableVertexAttribArrayE 0,
    .polygonModeE GL_FRONT_AND_BACK GL_LINE ]

/-- Lines 189–206: the body of one render-loop iteration. -/
def loopBody : List Event :=
  [ .processInputE,
    .clearColorE (mkRat 1 5) (mkRat 3 10) (mkRat 3 10) 1,
    .clearE GL_COLOR_BUFFER_BIT,
    .useProgramE shaderProgramId,
    .bindVertexArrayE vaoId,
    .drawElementsE GL_TRIANGLES 6 GL_UNSIGNED_INT 0,
    .swapBuffersE,
    .pollEventsE ]

/-- Lines 185–207: the `while (!glfwWindowShouldClose(window))` loop when the
check answers `false` exactly `frames` times; each check is an event. -/
def renderLoop : Nat → List Event
  | 0 => [ .windowShouldCloseCheckE ]
  | n + 1 => .windowShouldCloseCheckE :: (loopBody ++ renderLoop n)

/-- Lines 209–215: delete the VAO and the two buffers, terminate GLFW. -/
def cleanupSeg : List Event :=
  [ .deleteVertexArraysE 1, .deleteBuffersE 1, .deleteBuffersE 1, .glfwTerminateE ]

/-- `main` of the source, lines 30–217: the trace of library calls and the
return value, given the outcomes in `env`.  The three branches are the
window-creation failure return (lines 49–54), the GLAD failure return
(lines 66–70), and the straight-line rest of the function. -/
def main (env : Env) : List Event × Int :=
  if env.windowOk = false then
    (initSegA ++ [ .coutLineE windowErrMsg, .glfwTerminateE ], -1)
  else if env.gladOk = false then
    (initSegA ++ initSegB ++ [ .coutLineE gladErrMsg ], -1)
  else
    (initSegA ++ initSegB
       ++ shaderSeg env.vertexCompileOk env.linkOk
       ++ bufferSeg
       ++ renderLoop env.frames
       ++ cleanupSeg, 0)

/-! ### `processInput` (lines 222–226) on a window state -/

/-- A GLFW window as `processInput` can observe and modify it: the
should-close flag and the current action of each key. -/
structure Window where
  shouldClose : Bool
  keys : Nat → Nat

/-- `glfwGetKey(window, key)`. -/
def glfwGetKey (w : Window) (key : Nat) : Nat := w.keys key

/-- `glfwSetWindowShouldClose(window, value)`. -/
def glfwSetWindowShouldClose (w : Window) (value : Bool) : Window :=
  { w with shouldClose := value }

/-- Lines 222–226: set the should-close flag when ESC is pressed. -/
def processInput (w : Window) : Window :=
  if glfwGetKey w GLFW_KEY_ESCAPE = GLFW_PRESS then
    glfwSetWindowShouldClose w true
  else
    w

/-! ### Event classifiers -/

def isCoutE : Event → Bool
  | .coutLineE _ => true
  | _ => false

def isDrawE : Event → Bool
  | .drawElementsE _ _ _ _ => true
  | .drawArraysE _ _ _ => true
  | _ => false

def isPolygonModeE : Event → Bool
  | .polygonModeE _ _ => true
  | _ => false

def isArrayUploadE : Event → Bool
  | .bufferDataFE _ _ _ => true
  | _ => false

def isElementUploadE : Event → Bool
  | .bufferDataUE _ _ _ => true
  | _ => false

def isUploadE : Event → Bool
  | .bufferDataFE _ _ _ => true
  | .bufferDataUE _ _ _ => true
  | _ => false

def isFragStatusQueryE : Event → Bool
  | .getShaderivE s _ => s == fragmentShaderId
  | _ => false

def isCompileE : Event → Bool
  | .compileShaderE _ => true
  | _ => false

def isLinkE : Event → Bool
  | .linkProgramE _ => true
  | _ => false

def isTerminateE : Event → Bool
  | .glfwTerminateE => true
  | _ => false

/-- Phase classifiers for the linear-sequence claim: initialisation. -/
def isInitE : Event → Bool
  | .glfwInitE => true
  | .windowHintE _ _ => true
  | .createWindowE _ _ _ => true
  | .makeContextCurrentE => true
  | .setFramebufferSizeCallbackE => true
  | .gladLoadE => true
  | _ => false

/-- Shader compilation and program linking, including its error logging. -/
def isShaderPhaseE : Event → Bool
  | .createShaderE _ => true
  | .shaderSourceE _ => true
  | .compileShaderE _ => true
  | .getShaderivE _ _ => true
  | .getShaderInfoLogE _ => true
  | .coutLineE _ => true
  | .createProgramE => true
  | .attachShaderE _ _ => true
  | .linkProgramE _ => true
  | .getProgramivE _ _ => true
  | .getProgramInfoLogE _ => true
  | .deleteShaderE _ => true
  | _ => false

/-- Buffer creation, upload and vertex-attribute / polygon-mode setup. -/
def isBufferPhaseE : Event → Bool
  | .genVertexArraysE _ => true
  | .genBuffersE _ => true
  | .bindVertexArrayE _ => true
  | .bindBufferE _ _ => true
  | .bufferDataFE _ _ _ => true
  | .bufferDataUE _ _ _ => true
  | .vertexAttribPointerE _ _ _ _ _ => true
  | .enableVertexAttribArrayE _ => true
  | .polygonModeE _ _ => true
  | _ => false

/-- Render-loop events (the VAO bind also occurs per frame at line 198). -/
def isLoopPhaseE : Event → Bool
  | .windowShouldCloseCheckE => true
  | .processInputE => true
  | .clearColorE _ _ _ _ => true
  | .clearE _ => true
  | .useProgramE _ => true
  | .bindVertexArrayE _ => true
  | .drawElementsE _ _ _ _ => true
  | .swapBuffersE => true
  | .pollEventsE => true
  | _ => false

/-- Cleanup: the deletes and the final `glfwTerminate`. -/
def isCleanupE : Event → Bool
  | .deleteVertexArraysE _ => true
  | .deleteBuffersE _ => true
  | .glfwTerminateE => true
  | _ => false

end HelloTriangle

namespace HelloTriangle

/-! ### Helper lemmas about the render loop -/

theorem renderLoop_countP (p : Event → Bool) (hp : p Event.windowShouldCloseCheckE = false)
    (f : Nat) : (renderLoop f).countP p = f * loopBody.countP p := by
  induction f with
  | zero => simp [renderLoop, List.countP_cons, List.countP_nil, hp]
  | succ n ih =>
      simp [renderLoop, List.countP_cons, List.countP_append, hp, ih]
      ring

theorem renderLoop_filter_nil (p : Event → Bool) (hp : p Event.windowShouldCloseCheckE = false)
    (hb : loopBody.filter p = []) (f : Nat) : (renderLoop f).filter p = [] := by
  induction f with
  | zero => simp [renderLoop, List.filter_cons, hp]
  | succ n ih => simp [renderLoop, List.filter_cons, List.filter_append, hp, hb, ih]

theorem renderLoop_all_loopPhase (f : Nat) : (renderLoop f).all isLoopPhaseE = true := by
  induction f with
  | zero => decide
  | succ n ih =>
      simp only [renderLoop, List.all_cons, List.all_append, ih, Bool.and_true]
      decide

end HelloTriangle

namespace HelloTriangle

/-- Claim C1, counterexample: in a run where the fragment shader fails to
compile (and everything else succeeds), the program performs no
compile-status query on the fragment shader and prints nothing, so the
failure is neither detected nor logged. -/
theorem C1_counterexample :
    (⟨true, true, true, false, true, 0⟩ : Env).fragmentCompileOk = false
    ∧ (main ⟨true, true, true, false, true, 0⟩).1.countP isFragStatusQueryE = 0
    ∧ (main ⟨true, true, true, false, true, 0⟩).1.countP isCoutE = 0 := by
  decide

/-- Claim C6, counterexample: a run whose fragment shader compilation fails
is a run with a shader compile failure in which nothing is logged (no output
at all), contradicting "on shader compile ... failure it logs". -/
theorem C6_counterexample :
    (⟨true, true, true, false, true, 1⟩ : Env).fragmentCompileOk = false
    ∧ (main ⟨true, true, true, false, true, 1⟩).1.countP isCoutE = 0
    ∧ (main ⟨true, true, true, false, true, 1⟩).2 = 0 := by
  decide

/-- Claim C10: every entry of the 6-entry index array is a valid index into
the 4-vertex array (`vertices.length / 3 = 4` vertices), and the draw call
issued each frame draws triangles with a count of 6, the length of the
index array, as unsigned ints. -/
theorem C10_indices_in_range :
    indices.all (fun i => i < vertices.length / 3) = true
    ∧ indices.length = 6
    ∧ loopBody.filter isDrawE
        = [Event.drawElementsE GL_TRIANGLES indices.length GL_UNSIGNED_INT 0] := by
  decide

/-- Claim C9: `processInput` sets the window's should-close flag to true
precisely when ESC is currently pressed, and leaves the window state
entirely unchanged when ESC is not pressed. -/
theorem C9_processInput_esc (w : Window) :
    (glfwGetKey w GLFW_KEY_ESCAPE = GLFW_PRESS →
        processInput w = { w with shouldClose := true })
    ∧ (glfwGetKey w GLFW_KEY_ESCAPE ≠ GLFW_PRESS → processInput w = w) := by
  constructor
  · intro h
    simp [processInput, glfwSetWindowShouldClose, h]
  · intro h
    simp [processInput, h]

/-- Claim C9, witness: both branches of `C9_processInput_esc` at concrete
windows (ESC pressed and ESC not pressed). -/
theorem C9_processInput_esc_witness :
    processInput ⟨false, fun _ => GLFW_PRESS⟩ = ⟨true, fun _ => GLFW_PRESS⟩
    ∧ processInput ⟨true, fun _ => 0⟩ = ⟨true, fun _ => 0⟩ :=
  ⟨(C9_processInput_esc ⟨false, fun _ => GLFW_PRESS⟩).1 rfl,
   (C9_processInput_esc ⟨true, fun _ => 0⟩).2 (by decide)⟩

end HelloTriangle

namespace HelloTriangle

/-- Claim C1 (amended): window-creation failure, loader failure, vertex
shader compile failure and program link failure are each detected and
logged to standard output; the fragment shader's compile status, however,
is never queried in any run, so a fragment compile failure goes undetected
and unlogged. -/
theorem C1_error_detection :
    (∀ (g v fo l : Bool) (f : Nat),
        Event.coutLineE windowErrMsg ∈ (main ⟨false, g, v, fo, l, f⟩).1)
    ∧ (∀ (v fo l : Bool) (f : Nat),
        Event.coutLineE gladErrMsg ∈ (main ⟨true, false, v, fo, l, f⟩).1)
    ∧ (∀ (fo l : Bool) (f : Nat),
        Event.getShaderivE vertexShaderId GL_COMPILE_STATUS ∈ (main ⟨true, true, false, fo, l, f⟩).1
        ∧ Event.coutLineE vertexErrMsg ∈ (main ⟨true, true, false, fo, l, f⟩).1)
    ∧ (∀ (v fo : Bool) (f : Nat),
        Event.getProgramivE shaderProgramId GL_LINK_STATUS ∈ (main ⟨true, true, v, fo, false, f⟩).1
        ∧ Event.coutLineE linkErrMsg ∈ (main ⟨true, true, v, fo, false, f⟩).1)
    ∧ (∀ env : Env, (main env).1.countP isFragStatusQueryE = 0) := by
  refine ⟨?_, ?_, ?_, ?_, ?_⟩
  · intro g v fo l f
    simp [main, initSegA]
  · intro v fo l f
    simp [main, initSegA, initSegB]
  · intro fo l f
    cases l <;> (constructor <;> simp [main, initSegA, initSegB, shaderSeg, bufferSeg, cleanupSeg])
  · intro v fo f
    cases v <;> (constructor <;> simp [main, initSegA, initSegB, shaderSeg, bufferSeg, cleanupSeg])
  · intro env
    rcases env with ⟨w, g, v, fo, l, f⟩
    have hL : (renderLoop f).countP isFragStatusQueryE = 0 := by
      rw [renderLoop_countP isFragStatusQueryE (by decide) f]
      simp [show loopBody.countP isFragStatusQueryE = 0 from by decide]
    cases w <;> cases g <;> cases v <;> cases l <;>
      (simp [main, List.countP_append, hL]; try decide)

/-- Claim C2: in every completed run, polygon mode is set exactly once, to
line rendering for front and back faces, and that happens in the pre-loop
setup; each render-loop iteration issues exactly one draw call, namely an
indexed draw of 6 unsigned-int indices as triangles, and no draw call
occurs anywhere else. -/
theorem C2_wireframe_draw (v fo l : Bool) (f : Nat) :
    (main ⟨true, true, v, fo, l, f⟩).1
      = (initSegA ++ initSegB ++ shaderSeg v l ++ bufferSeg) ++ (renderLoop f ++ cleanupSeg)
    ∧ (initSegA ++ initSegB ++ shaderSeg v l ++ bufferSeg).filter isPolygonModeE
        = [Event.polygonModeE GL_FRONT_AND_BACK GL_LINE]
    ∧ (renderLoop f).countP isPolygonModeE = 0
    ∧ cleanupSeg.countP isPolygonModeE = 0
    ∧ loopBody.filter isDrawE = [Event.drawElementsE GL_TRIANGLES 6 GL_UNSIGNED_INT 0]
    ∧ (renderLoop f).countP isDrawE = f
    ∧ (initSegA ++ initSegB ++ shaderSeg v l ++ bufferSeg).countP isDrawE = 0
    ∧ cleanupSeg.countP isDrawE = 0 := by
  refine ⟨?_, ?_, ?_, by decide, by decide, ?_, ?_, by decide⟩
  · simp [main, List.append_assoc]
  · cases v <;> cases l <;> decide
  · rw [renderLoop_countP isPolygonModeE (by decide) f]
    simp [show loopBody.countP isPolygonModeE = 0 from by decide]
  · rw [renderLoop_countP isDrawE (by decide) f]
    simp [show loopBody.countP isDrawE = 1 from by decide]
  · cases v <;> cases l <;> decide

/-- Claim C3: the vertex array holds exactly 12 floats (four 3-component
positions, each with zero third coordinate) and the index array exactly 6
indices; both are fixed constants, and in every completed run the only
buffer uploads are of exactly these two arrays. -/
theorem C3_fixed_data :
    vertices.length = 12
    ∧ indices.length = 6
    ∧ ([2, 5, 8, 11] : List Nat).all (fun i => vertices.getD i 1 = 0) = true
    ∧ (∀ (v fo l : Bool) (f : Nat),
        (main ⟨true, true, v, fo, l, f⟩).1.filter isUploadE
          = [ Event.bufferDataFE GL_ARRAY_BUFFER vertices GL_STATIC_DRAW,
              Event.bufferDataUE GL_ELEMENT_ARRAY_BUFFER indices GL_STATIC_DRAW ]) := by
  refine ⟨by decide, by decide, by decide, ?_⟩
  intro v fo l f
  have hL : (renderLoop f).filter isUploadE = [] :=
    renderLoop_filter_nil isUploadE (by decide) (by decide) f
  cases v <;> cases l <;> (simp [main, List.filter_append, hL]; decide)

/-- Claim C4: in every completed run, the array-buffer upload and the
element-array-buffer upload each occur exactly once; the trace decomposes
into a pre-loop prefix followed by the render loop and cleanup, and no
buffer upload occurs inside the render loop or after it — hence both
uploads happen exactly once, before the loop begins. -/
theorem C4_upload_once (v fo l : Bool) (f : Nat) :
    (main ⟨true, true, v, fo, l, f⟩).1.countP isArrayUploadE = 1
    ∧ (main ⟨true, true, v, fo, l, f⟩).1.countP isElementUploadE = 1
    ∧ (main ⟨true, true, v, fo, l, f⟩).1
        = (initSegA ++ initSegB ++ shaderSeg v l ++ bufferSeg) ++ (renderLoop f ++ cleanupSeg)
    ∧ (renderLoop f ++ cleanupSeg).countP isUploadE = 0 := by
  have hA : (renderLoop f).countP isArrayUploadE = 0 := by
    rw [renderLoop_countP isArrayUploadE (by decide) f]
    simp [show loopBody.countP isArrayUploadE = 0 from by decide]
  have hE : (renderLoop f).countP isElementUploadE = 0 := by
    rw [renderLoop_countP isElementUploadE (by decide) f]
    simp [show loopBody.countP isElementUploadE = 0 from by decide]
  have hU : (renderLoop f).countP isUploadE = 0 := by
    rw [renderLoop_countP isUploadE (by decide) f]
    simp [show loopBody.countP isUploadE = 0 from by decide]
  refine ⟨?_, ?_, ?_, ?_⟩
  · cases v <;> cases l <;> (simp [main, List.countP_append, hA]; decide)
  · cases v <;> cases l <;> (simp [main, List.countP_append, hE]; decide)
  · simp [main, List.append_assoc]
  · simp [List.countP_append, hU]
    decide

/-- Claim C5: every completed run is the concatenation, in order, of the
initialisation segment, the shader compile/link segment, the buffer-upload
segment, the render loop, and the cleanup segment, with return value 0 —
and each segment consists solely of events of its phase. -/
theorem C5_linear_phases (v fo l : Bool) (f : Nat) :
    main ⟨true, true, v, fo, l, f⟩
      = (initSegA ++ initSegB ++ shaderSeg v l ++ bufferSeg ++ renderLoop f ++ cleanupSeg, 0)
    ∧ (initSegA ++ initSegB).all isInitE = true
    ∧ (shaderSeg v l).all isShaderPhaseE = true
    ∧ bufferSeg.all isBufferPhaseE = true
    ∧ (renderLoop f).all isLoopPhaseE = true
    ∧ cleanupSeg.all isCleanupE = true := by
  refine ⟨by simp [main], by decide, ?_, by decide, renderLoop_all_loopPhase f, by decide⟩
  cases v <;> cases l <;> decide

/-- Claim C6 (amended): no error is recovered or retried.  On window
creation failure the run is exactly the init prefix, the log line and
`glfwTerminate`, returning -1; on loader failure exactly the init events
and the log line, returning -1.  In every completed run there are exactly
two shader compilations and one link (so no re-attempt), vertex-compile
and link failures are logged, and a run whose only failure is the fragment
shader compilation logs nothing and still runs to completion. -/
theorem C6_no_recovery :
    (∀ (g v fo l : Bool) (f : Nat),
        main ⟨false, g, v, fo, l, f⟩
          = (initSegA ++ [Event.coutLineE windowErrMsg, Event.glfwTerminateE], -1))
    ∧ (∀ (v fo l : Bool) (f : Nat),
        main ⟨true, false, v, fo, l, f⟩
          = (initSegA ++ initSegB ++ [Event.coutLineE gladErrMsg], -1))
    ∧ (∀ (v fo l : Bool) (f : Nat),
        (main ⟨true, true, v, fo, l, f⟩).1.countP isCompileE = 2
        ∧ (main ⟨true, true, v, fo, l, f⟩).1.countP isLinkE = 1
        ∧ (main ⟨true, true, v, fo, l, f⟩).2 = 0)
    ∧ (∀ (fo l : Bool) (f : Nat),
        Event.coutLineE vertexErrMsg ∈ (main ⟨true, true, false, fo, l, f⟩).1)
    ∧ (∀ (v fo : Bool) (f : Nat),
        Event.coutLineE linkErrMsg ∈ (main ⟨true, true, v, fo, false, f⟩).1)
    ∧ (∀ (fo : Bool) (f : Nat),
        (main ⟨true, true, true, fo, true, f⟩).1.countP isCoutE = 0
        ∧ (main ⟨true, true, true, fo, true, f⟩).2 = 0) := by
  refine ⟨?_, ?_, ?_, ?_, ?_, ?_⟩
  · intro g v fo l f
    simp [main]
  · intro v fo l f
    simp [main]
  · intro v fo l f
    have h1 : (renderLoop f).countP isCompileE = 0 := by
      rw [renderLoop_countP isCompileE (by decide) f]
      simp [show loopBody.countP isCompileE = 0 from by decide]
    have h2 : (renderLoop f).countP isLinkE = 0 := by
      rw [renderLoop_countP isLinkE (by decide) f]
      simp [show loopBody.countP isLinkE = 0 from by decide]
    refine ⟨?_, ?_, by simp [main]⟩
    · cases v <;> cases l <;> (simp [main, List.countP_append, h1]; decide)
    · cases v <;> cases l <;> (simp [main, List.countP_append, h2]; decide)
  · intro fo l f
    cases l <;> simp [main, initSegA, initSegB, shaderSeg, bufferSeg, cleanupSeg]
  · intro v fo f
    cases v <;> simp [main, initSegA, initSegB, shaderSeg, bufferSeg, cleanupSeg]
  · intro fo f
    have h3 : (renderLoop f).countP isCoutE = 0 := by
      rw [renderLoop_countP isCoutE (by decide) f]
      simp [show loopBody.countP isCoutE = 0 from by decide]
    refine ⟨?_, by simp [main]⟩
    simp [main, List.countP_append, h3]
    decide

/-- Claim C7: in every run, the first five library calls are `glfwInit`,
the context-version-major hint set to 3, the context-version-minor hint
set to 3, the profile hint set to the core profile, and only then the
window creation — so the 3.3 core-profile hints all precede the window. -/
theorem C7_context_hints (env : Env) :
    (main env).1.take 5
      = [ Event.glfwInitE,
          Event.windowHintE GLFW_CONTEXT_VERSION_MAJOR 3,
          Event.windowHintE GLFW_CONTEXT_VERSION_MINOR 3,
          Event.windowHintE GLFW_OPENGL_PROFILE GLFW_OPENGL_CORE_PROFILE,
          Event.createWindowE SCR_WIDTH SCR_HEIGHT "OpenGL - Creating a window" ] := by
  rcases env with ⟨w, g, v, fo, l, f⟩
  cases w <;> cases g <;>
    simp [main, initSegA, List.cons_append]

/-- Claim C8: the two error-exit paths clean up differently: the
window-creation failure path performs `glfwTerminate` (exactly once) before
returning -1, while the loader failure path returns -1 with no
`glfwTerminate` at all. -/
theorem C8_exit_cleanup_asymmetry :
    (∀ (g v fo l : Bool) (f : Nat),
        (main ⟨false, g, v, fo, l, f⟩).1.countP isTerminateE = 1
        ∧ (main ⟨false, g, v, fo, l, f⟩).2 = -1)
    ∧ (∀ (v fo l : Bool) (f : Nat),
        (main ⟨true, false, v, fo, l, f⟩).1.countP isTerminateE = 0
        ∧ (main ⟨true, false, v, fo, l, f⟩).2 = -1) := by
  constructor
  · intro g v fo l f
    refine ⟨?_, ?_⟩ <;> (simp [main]; try decide)
  · intro v fo l f
    refine ⟨?_, ?_⟩ <;> (simp [main]; try decide)

end HelloTriangle
